import Mathlib

/-!
Verification of the registry replication engine of the nestjs-lab repository.

The definitions below are a shallow embedding of the TypeScript sources:
- src/my-lab-api/src/commons/registry/client.ts   (ContainerRegistryClient)
- src/my-lab-api/src/commons/registry/saveImage.ts (saveAsOCIImageLayout, isProbablyGzip)
- src/my-lab-api/src/services/auth.service.ts      (RegistryService)
- src/unnamed/part_005                             (RegistryCopyService.copyImage, ver 3)

Byte buffers are modelled as List Nat (each entry one byte).  The sha256 hex
digest, gzip compression and JSON serialisation are opaque collaborators of
the code under scrutiny (crypto, zlib, JSON.stringify); they are passed as
explicit function parameters so that every theorem holds for the real
functions in particular.  HTTP exchanges are modelled by explicit response
records and by traces of emitted protocol events.
-/

namespace NestjsLab

/-- A content descriptor as used in Docker/OCI manifests:
`\x7b mediaType, digest, size \x7d`. -/
structure Descriptor where
  mediaType : String
  digest : String
  size : Nat
deriving Repr, DecidableEq

/-- A concrete (single-platform) image manifest: a config descriptor plus an
ordered list of layer descriptors. -/
structure Manifest where
  schemaVersion : Nat
  mediaType : String
  config : Descriptor
  layers : List Descriptor
deriving Repr, DecidableEq

/-! ## RegistryService (auth.service.ts): constants and adjustConcurrency -/

/-- auth.service.ts line 61: `const DEFAULT_CONCURRENCY = 5`. -/
def DEFAULT_CONCURRENCY : Nat := 5

/-- auth.service.ts line 62: `const MAX_CONCURRENCY = 10`. -/
def MAX_CONCURRENCY : Nat := 10

/-- auth.service.ts line 63: `const MIN_CONCURRENCY = 1`. -/
def MIN_CONCURRENCY : Nat := 1

/-- auth.service.ts line 64: `const MEMORY_THRESHOLD = 3 * 1024 * 1024 * 1024`. -/
def MEMORY_THRESHOLD : Nat := 3 * 1024 * 1024 * 1024

/-- auth.service.ts line 65: `const MAX_QUEUE_SIZE = 1000`. -/
def MAX_QUEUE_SIZE : Nat := 1000

/-- RegistryService.adjustConcurrency (auth.service.ts lines 90-102).
`usedMemory = heapUsed + external + arrayBuffers` is the sampled value;
`concurrency` is `this.queue.concurrency` before the tick.  The function
returns the concurrency after the tick.  JS `Math.max(MIN_CONCURRENCY,
concurrency - 1)` on positive ints coincides with Nat `max` and truncated
subtraction. -/
def adjustConcurrency (concurrency usedMemory : Nat) : Nat :=
  if usedMemory > MEMORY_THRESHOLD then
    max MIN_CONCURRENCY (concurrency - 1)
  else if concurrency < MAX_CONCURRENCY then
    concurrency + 1
  else
    concurrency

/-! ## The bounded queue (auth.service.ts lines 72-83)

The RegistryService constructor installs a custom p-queue queueClass whose
`enqueue` throws once `this.size >= MAX_QUEUE_SIZE`.  In p-queue, the
queueClass instance stores only the WAITING jobs: a job picked up by a
worker is dequeued from it and counted in the separate `pending` counter.
We model the queue state by those two counters. -/

/-- p-queue state as observed by the custom queueClass: `size` counts the
jobs waiting in the internal queue array, `pending` counts the running
jobs (held by PQueue outside the queueClass). -/
structure QueueState where
  size : Nat
  pending : Nat
deriving Repr, DecidableEq

/-- The overridden `enqueue` of auth.service.ts lines 76-81: it throws a
queue-overflow error when `this.size >= MAX_QUEUE_SIZE`, and otherwise
admits the job into the waiting queue (`super.enqueue`). -/
def enqueue (s : QueueState) : Except String QueueState :=
  if s.size ≥ MAX_QUEUE_SIZE then
    .error "Queue overflow: too many concurrent requests"
  else
    .ok { s with size := s.size + 1 }

/-! ## Memory gates (C7)

Two distinct poll loops exist in the source:
- RegistryService.waitForMemoryAvailability (auth.service.ts lines 124-132):
  samples `process.memoryUsage()` each iteration, returns as soon as
  `heapUsed + external + arrayBuffers < MEMORY_THRESHOLD`, and otherwise
  sleeps 1000 ms and retries.
- ContainerRegistryClient.waitForMemoryAvailability (client.ts lines
  91-96): loops `while (os.freemem() < this.memoryThreshold)` with the same
  1000 ms sleep, i.e. it returns as soon as the sampled FREE memory is at
  or above the threshold.

Both are modelled with an explicit sample stream (`Nat → Nat`, the value of
the sampled quantity at the i-th poll), a start index and a fuel bound;
`some k` means the loop returned after observing the k-th sample, `none`
means the fuel ran out (the loop is still spinning). -/

/-- RegistryService.waitForMemoryAvailability: `totalUsed` is the sampled
process usage (heapUsed + external + arrayBuffers) at each poll. -/
def RegistryService.waitForMemoryAvailability
    (totalUsed : Nat → Nat) (i : Nat) : Nat → Option Nat
  | 0 => none
  | fuel + 1 =>
    if totalUsed i < MEMORY_THRESHOLD then some i
    else RegistryService.waitForMemoryAvailability totalUsed (i + 1) fuel

/-- ContainerRegistryClient.waitForMemoryAvailability: `freemem` is the
sampled `os.freemem()` at each poll and `threshold` is
`this.memoryThreshold` (options.memoryThresholdBytes, default 3 GiB). -/
def ContainerRegistryClient.waitForMemoryAvailability
    (freemem : Nat → Nat) (threshold : Nat) (i : Nat) : Nat → Option Nat
  | 0 => none
  | fuel + 1 =>
    if freemem i < threshold then
      ContainerRegistryClient.waitForMemoryAvailability freemem threshold (i + 1) fuel
    else some i

/-! ## Blob pull with manual redirect (client.ts lines 132-158, C8)

`pullBlobAsStream` issues the initial GET with `maxRedirects: 0` and
`validateStatus` accepting 200/302/307 (any other status makes axios
reject).  On 302/307 it reads the `location` header; if absent it throws
"Missing redirect location" WITHOUT issuing any further request; if present
it issues a follow-up GET against that location.  The returned size is
`parseInt(headers["content-length"] || "0", 10)`. -/

/-- An HTTP response as far as pullBlobAsStream inspects it. -/
structure BlobResponse where
  status : Nat
  location : Option String
  contentLength : Option Nat
deriving Repr, DecidableEq

/-- Requests emitted while pulling one blob. -/
inductive PullEvent where
  | initialGet
  | redirectGet (url : String)
deriving Repr, DecidableEq

/-- `parseInt(headers["content-length"] || "0", 10)`: a missing header
parses as 0. -/
def parsedContentLength (h : Option Nat) : Nat := h.getD 0

/-- ContainerRegistryClient.pullBlobAsStream, as a function of the initial
response and of the response the redirect target would give.  Returns the
trace of requests issued together with either an error or the size handed
back to the caller (the stream itself carries no bytes in this model: an
error before the redirect GET means zero blob bytes were transferred). -/
def pullBlobAsStream (resp : BlobResponse) (redirected : String → BlobResponse) :
    List PullEvent × Except String Nat :=
  if resp.status = 302 ∨ resp.status = 307 then
    match resp.location with
    | none => ([.initialGet], .error "Missing redirect location")
    | some loc =>
      ([.initialGet, .redirectGet loc],
        .ok (parsedContentLength (redirected loc).contentLength))
  else if resp.status = 200 then
    ([.initialGet], .ok (parsedContentLength resp.contentLength))
  else
    ([.initialGet], .error "axios: validateStatus rejected the response")

/-! ## syncImageWithBuffer manifest rebuild (client.ts lines 160-195, C1)

After transferring the config and the layers, syncImageWithBuffer rebuilds
the destination manifest: the config descriptor keeps the source mediaType
and digest but its `size` is `configSize` — the parsed content-length of
the config blob pull response — while each layer keeps mediaType, size and
digest from the source manifest, in order. -/

/-- The destination manifest built by syncImageWithBuffer (client.ts lines
175-188) from the fetched source `manifest` and the `configSize` returned
by pullBlobAsStream for the config blob. -/
def syncImageWithBufferNewManifest (manifest : Manifest) (configSize : Nat) : Manifest :=
  { schemaVersion := 2
  , mediaType := "application/vnd.docker.distribution.manifest.v2+json"
  , config :=
      { mediaType := manifest.config.mediaType
      , size := configSize
      , digest := manifest.config.digest }
  , layers := manifest.layers.map fun layer =>
      { mediaType := layer.mediaType
      , size := layer.size
      , digest := layer.digest } }

/-! ## RegistryCopyService.copyImage (src/unnamed/part_005 ver 3, C1/C2)

The fetched manifest graph is modelled as a tree: fetchManifest returned
either a concrete manifest (dispatch fell through the media-type test) or a
manifest list / image index, in which case each entry digest was fetched in
turn, yielding a child subtree.  Blob transfers (checkBlobSize +
isMemorySafe + downloadBlob + uploadViaPipeline) succeed or fail according
to the oracle `blobOk`, keyed by digest.  The execution is recorded as a
trace of protocol events; Promise.all is modelled by attempting every
branch and succeeding only when all branches succeed (pLimit does not
cancel queued tasks on rejection, so every transfer is attempted). -/

/-- JS `hay.includes(needle)` on strings, via char lists. -/
def listIncludes (hay needle : List Char) : Bool :=
  match hay with
  | [] => needle.isEmpty
  | _ :: t => needle.isPrefixOf hay || listIncludes t needle

/-- JS `s.includes(sub)`. -/
def strIncludes (s sub : String) : Bool := listIncludes s.data sub.data

/-- "s ends with suf" as a computable test on char lists. -/
def strEndsWith (s suf : String) : Bool :=
  suf.data.reverse.isPrefixOf s.data.reverse

/-- The body handed to uploadManifest: either the concrete manifest or the
raw index JSON, republished unchanged. -/
inductive PutBody where
  | image (m : Manifest)
  | indexRaw (raw : String)
deriving Repr, DecidableEq

/-- Protocol events emitted while copying an image. -/
inductive CopyEvent where
  | blobUpload (digest : String)
  | manifestPut (reference : String) (mediaType : String) (body : PutBody)
deriving Repr, DecidableEq

/-- The manifest tree rooted at one fetched reference.  `index` carries the
content-type the registry returned (which satisfied the
manifest.list/image.index test), the raw body that uploadManifest
republishes, and one (entry digest, subtree) pair per index entry. -/
inductive ManifestTree where
  | image (mediaType : String) (m : Manifest)
  | indexNode (mediaType : String) (raw : String)
      (children : List (String × ManifestTree))
deriving Repr

mutual

/-- RegistryCopyService.copyImage (part_005 lines 609-641) against the
fetched tree, copying to destination reference `destRef`.  Returns the
event trace of this invocation (children included) and whether the
invocation as a whole succeeded. -/
def copyImage (blobOk : String → Bool) : ManifestTree → String → List CopyEvent × Bool
  | .image mt m, destRef =>
    let transferable := m.layers.filter fun l => !(strIncludes l.mediaType "foreign")
    let layerEvents := transferable.filterMap fun l =>
      if blobOk l.digest then some (CopyEvent.blobUpload l.digest) else none
    if transferable.all fun l => blobOk l.digest then
      if blobOk m.config.digest then
        (layerEvents ++ [CopyEvent.blobUpload m.config.digest,
          CopyEvent.manifestPut destRef mt (.image m)], true)
      else (layerEvents, false)
    else (layerEvents, false)
  | .indexNode mt raw children, destRef =>
    let results := copyChildren blobOk children
    let trace := (results.map Prod.fst).flatten
    if results.all fun r => r.2 then
      (trace ++ [CopyEvent.manifestPut destRef mt (.indexRaw raw)], true)
    else (trace, false)

/-- One recursive copyImage call per index entry, at the entry digest
(`subSrc`/`subDest` both use `m.digest` as reference). -/
def copyChildren (blobOk : String → Bool) :
    List (String × ManifestTree) → List (List CopyEvent × Bool)
  | [] => []
  | c :: cs => copyImage blobOk c.2 c.1 :: copyChildren blobOk cs

end

/-! ## RegistryService.syncImageWithBuffer (auth.service.ts lines 137-172, C2)

Strictly sequential: config pull+push, then each layer pull+push in
manifest order, then `putManifest(destRepo, destTag, manifest)` with the
fetched manifest unchanged.  Any await that rejects aborts the remainder. -/

/-- The per-layer loop of auth.service.ts lines 162-165: stops at the first
layer whose pull or push fails. -/
def syncLayersLoop (transferOk : String → Bool) : List Descriptor → List CopyEvent × Bool
  | [] => ([], true)
  | l :: ls =>
    if transferOk l.digest then
      let r := syncLayersLoop transferOk ls
      (CopyEvent.blobUpload l.digest :: r.1, r.2)
    else ([], false)

/-- RegistryService.syncImageWithBuffer: `transferOk d` tells whether the
pull+push of blob `d` succeeds. -/
def RegistryService.syncImageWithBuffer (transferOk : String → Bool)
    (m : Manifest) (destTag : String) : List CopyEvent × Bool :=
  if transferOk m.config.digest then
    let r := syncLayersLoop transferOk m.layers
    if r.2 then
      (CopyEvent.blobUpload m.config.digest :: r.1
        ++ [CopyEvent.manifestPut destTag m.mediaType (.image m)], true)
    else (CopyEvent.blobUpload m.config.digest :: r.1, false)
  else ([], false)

/-! ## RegistryService.syncImageWithTarball (auth.service.ts lines 177-232, C3)

All blobs (config first, then the layers in order) are downloaded to
`TMP_DIR/<digest with the first ":" replaced by "_">.blob`, then pushed
from file, then the manifest is put, and only then the cleanup loop
unlinks each temp file inside its own try/catch (deletion failures are
logged and skipped).  There is no try/finally: an exception anywhere
before step 5 leaves every already-created temp file on disk. -/

/-- JS `digest.replace(":", "_")` replaces only the first occurrence. -/
def replaceFirstChar (c d : Char) : List Char → List Char
  | [] => []
  | x :: xs => if x = c then d :: xs else x :: replaceFirstChar c d xs

/-- auth.service.ts lines 201/207: the temp file name for one blob digest. -/
def tmpFileName (digest : String) : String :=
  String.mk (replaceFirstChar ':' '_' digest.data) ++ ".blob"

/-- Download order of auth.service.ts lines 200-210: config blob first,
then every layer blob. -/
def blobDigests (m : Manifest) : List String :=
  m.config.digest :: m.layers.map fun l => l.digest

/-- Sequential downloadBlobToFile calls: each attempt creates its temp file
(fs.createWriteStream opens the file before the pipeline settles), and the
first failing pipeline aborts the rest.  Returns the files created and
whether all downloads succeeded. -/
def downloadAll (downloadOk : String → Bool) : List String → List String × Bool
  | [] => ([], true)
  | d :: ds =>
    if downloadOk d then
      let r := downloadAll downloadOk ds
      (tmpFileName d :: r.1, r.2)
    else ([tmpFileName d], false)

/-- The environment of one tarball-mode sync run. -/
structure TarballWorld where
  manifest : Manifest
  downloadOk : String → Bool
  pushOk : String → Bool
  putManifestOk : Bool
  unlinkOk : String → Bool

/-- RegistryService.syncImageWithTarball: returns the temp files still
present in TMP_DIR when the run settles (assuming the directory started
empty) together with the outcome surfaced to the caller. -/
def syncImageWithTarball (w : TarballWorld) : List String × Except String Unit :=
  let ds := blobDigests w.manifest
  let dl := downloadAll w.downloadOk ds
  if dl.2 then
    if ds.all w.pushOk then
      if w.putManifestOk then
        (dl.1.filter fun f => !w.unlinkOk f, .ok ())
      else (dl.1, .error "manifest put failed")
    else (dl.1, .error "Failed to push blob from file")
  else (dl.1, .error "download failed")

/-! ## saveAsOCIImageLayout (saveImage.ts lines 60-146, C4/C9)

`hash` stands for the sha256 hex digest (crypto.createHash("sha256")),
`gz` for zlib.gzipSync and `ser` for the JSON serialisation of the OCI
manifest object; all three are opaque collaborators. -/

/-- saveImage.ts lines 7-9: gzip magic-byte test.  Out-of-range reads give
undefined in JS, which compares unequal to the magic bytes. -/
def isProbablyGzip (buffer : List Nat) : Bool :=
  buffer[0]? == some 0x1f && buffer[1]? == some 0x8b

/-- The bytes written for one layer (saveImage.ts lines 94-105): with
useGzip undefined the layer is gzipped exactly when the magic bytes are
absent; with useGzip set the flag decides. -/
def ociLayerData (gz : List Nat → List Nat) (useGzip : Option Bool)
    (layer : List Nat) : List Nat :=
  match useGzip with
  | none => if !isProbablyGzip layer then gz layer else layer
  | some b => if b then gz layer else layer

/-- The media type recorded for one layer (saveImage.ts lines 94-105). -/
def ociLayerMediaType (useGzip : Option Bool) (layer : List Nat) : String :=
  match useGzip with
  | none =>
    if !isProbablyGzip layer then "application/vnd.oci.image.layer.v1.tar+gzip"
    else "application/vnd.oci.image.layer.v1.tar"
  | some b =>
    if b then "application/vnd.oci.image.layer.v1.tar+gzip"
    else "application/vnd.oci.image.layer.v1.tar"

/-- The OCI manifest object built at saveImage.ts lines 113-127. -/
structure OCIManifest where
  schemaVersion : Nat
  config : Descriptor
  layers : List Descriptor
deriving Repr, DecidableEq

/-- The observable output of saveAsOCIImageLayout: the files written under
blobs/sha256 (name, bytes), the manifest object, and the single index.json
manifests entry. -/
structure OCILayout where
  blobFiles : List (String × List Nat)
  manifest : OCIManifest
  manifestEntry : Descriptor
deriving Repr

/-- saveAsOCIImageLayout (saveImage.ts lines 60-146).  writeBlob stores
`data` under the file named `hash data` and returns that digest; the
per-layer loop that fills outputLayers/mediaTypes/layerDigests index-aligned
with `layers` is rendered as direct maps over `layers`. -/
def saveAsOCIImageLayout (hash : List Nat → String) (gz : List Nat → List Nat)
    (ser : OCIManifest → List Nat)
    (config : List Nat) (layers : List (List Nat)) (useGzip : Option Bool) :
    OCILayout :=
  let manifest : OCIManifest :=
    { schemaVersion := 2
    , config :=
        { mediaType := "application/vnd.oci.image.config.v1+json"
        , digest := "sha256:" ++ hash config
        , size := config.length }
    , layers := layers.map fun layer =>
        { mediaType := ociLayerMediaType useGzip layer
        , digest := "sha256:" ++ hash (ociLayerData gz useGzip layer)
        , size := (ociLayerData gz useGzip layer).length } }
  let manifestBuf := ser manifest
  { blobFiles :=
      (hash config, config)
        :: (layers.map fun layer =>
              (hash (ociLayerData gz useGzip layer), ociLayerData gz useGzip layer))
        ++ [(hash manifestBuf, manifestBuf)]
  , manifest := manifest
  , manifestEntry :=
      { mediaType := "application/vnd.oci.image.manifest.v1+json"
      , digest := "sha256:" ++ hash manifestBuf
      , size := manifestBuf.length } }

/-- A descriptor is consistent with a content-addressed store when some
stored bytes realise it: its digest is `sha256:` plus the hash of those
bytes, its size is their length, and the store holds them under the file
named by their hash. -/
def DescriptorMatches (hash : List Nat → String)
    (files : List (String × List Nat)) (d : Descriptor) : Prop :=
  ∃ bytes, d.digest = "sha256:" ++ hash bytes ∧ d.size = bytes.length ∧
    (hash bytes, bytes) ∈ files

/-! ## ContainerRegistryClient.pushImage (client.ts lines 353-394, C10) -/

/-- The observable output of pushImage: each uploadBlob call as a
(digest, bytes) pair (config first, then the layers in order) and the
manifest put at the destination tag. -/
structure PushedImage where
  uploadedBlobs : List (String × List Nat)
  manifest : Manifest
deriving Repr

/-- ContainerRegistryClient.pushImage: a layer whose isGzip flag is false
is gzipped before upload and its digest is the sha256 of the gzipped
bytes, but the manifest records `layers[idx].data.length` — the length of
the ORIGINAL buffer — as the size. -/
def pushImage (hash : List Nat → String) (gz : List Nat → List Nat)
    (config : List Nat) (layers : List (List Nat × Bool)) : PushedImage :=
  { uploadedBlobs :=
      ("sha256:" ++ hash config, config)
        :: (layers.map fun layer =>
              let dataToUpload := if layer.2 then layer.1 else gz layer.1
              ("sha256:" ++ hash dataToUpload, dataToUpload))
  , manifest :=
      { schemaVersion := 2
      , mediaType := "application/vnd.docker.distribution.manifest.v2+json"
      , config :=
          { mediaType := "application/vnd.docker.container.image.v1+json"
          , size := config.length
          , digest := "sha256:" ++ hash config }
      , layers := layers.map fun layer =>
          { mediaType := "application/vnd.docker.image.rootfs.diff.tar.gzip"
          , size := layer.1.length
          , digest := "sha256:" ++ hash (if layer.2 then layer.1 else gz layer.1) } } }

/-! # Theorems -/

/-- C6: for every adjustment tick starting from a concurrency value in
[1, 10], if the sampled memory usage exceeds the 3 GiB threshold the
concurrency decreases by 1 clamped at 1, otherwise it increases by 1
clamped at 10; in particular the concurrency after every tick stays
within [1, 10]. -/
theorem adjustConcurrency_bounds (c u : Nat)
    (h1 : MIN_CONCURRENCY ≤ c) (h2 : c ≤ MAX_CONCURRENCY) :
    (MIN_CONCURRENCY ≤ adjustConcurrency c u ∧
      adjustConcurrency c u ≤ MAX_CONCURRENCY) ∧
    (u > MEMORY_THRESHOLD →
      adjustConcurrency c u = max MIN_CONCURRENCY (c - 1)) ∧
    (u ≤ MEMORY_THRESHOLD →
      adjustConcurrency c u = min MAX_CONCURRENCY (c + 1)) := by
  simp only [adjustConcurrency, MIN_CONCURRENCY, MAX_CONCURRENCY] at *
  split_ifs with hmem hlt <;>
    constructor <;> try constructor
  all_goals omega

/-- Witness for C6 at concurrency 5 and a zero memory sample. -/
theorem adjustConcurrency_bounds_witness :
    (MIN_CONCURRENCY ≤ adjustConcurrency 5 0 ∧
      adjustConcurrency 5 0 ≤ MAX_CONCURRENCY) ∧
    ((0 : Nat) > MEMORY_THRESHOLD →
      adjustConcurrency 5 0 = max MIN_CONCURRENCY (5 - 1)) ∧
    ((0 : Nat) ≤ MEMORY_THRESHOLD →
      adjustConcurrency 5 0 = min MAX_CONCURRENCY (5 + 1)) :=
  adjustConcurrency_bounds 5 0 (by decide) (by decide)

/-- C5 counterexample: a queue state with 995 waiting and 5 running jobs
has queued-plus-running equal to the maximum of 1000, yet the overridden
enqueue still admits the job, because the check reads `this.size` — the
waiting count of the queueClass instance — which excludes running jobs. -/
theorem enqueue_queuedPlusRunning_counterexample :
    (QueueState.mk 995 5).size + (QueueState.mk 995 5).pending ≥ MAX_QUEUE_SIZE ∧
    enqueue (QueueState.mk 995 5) = .ok (QueueState.mk 996 5) := by
  constructor
  · decide
  · rfl

/-- C5 amended: the Enqueue override fails with the queue-overflow error
exactly when the number of WAITING jobs has reached 1000; running jobs are
not counted.  Below that bound the job is admitted into the waiting
queue. -/
theorem enqueue_overflow (s : QueueState) :
    (s.size ≥ MAX_QUEUE_SIZE →
      enqueue s = .error "Queue overflow: too many concurrent requests") ∧
    (s.size < MAX_QUEUE_SIZE →
      enqueue s = .ok { s with size := s.size + 1 }) := by
  constructor
  · intro h
    unfold enqueue
    rw [if_pos h]
  · intro h
    unfold enqueue
    rw [if_neg (by omega)]

/-- Witness for C5 (amended) at a full queue of 1000 waiting jobs. -/
theorem enqueue_overflow_witness :
    enqueue (QueueState.mk 1000 0) =
      .error "Queue overflow: too many concurrent requests" :=
  (enqueue_overflow (QueueState.mk 1000 0)).1 (by decide)

/-- C8: a blob pull whose initial response is a 302 or 307 without a
Location header fails with the missing-redirect-location error, issues no
follow-up GET (the trace holds only the initial request), and hands no
bytes back to the caller. -/
theorem pullBlobAsStream_missingLocation (resp : BlobResponse)
    (redirected : String → BlobResponse)
    (hst : resp.status = 302 ∨ resp.status = 307) (hloc : resp.location = none) :
    pullBlobAsStream resp redirected =
      ([.initialGet], .error "Missing redirect location") ∧
    ∀ url, PullEvent.redirectGet url ∉ (pullBlobAsStream resp redirected).1 := by
  have heq : pullBlobAsStream resp redirected =
      ([.initialGet], .error "Missing redirect location") := by
    rcases hst with h | h <;> simp [pullBlobAsStream, h, hloc]
  refine ⟨heq, ?_⟩
  intro url hmem
  rw [heq] at hmem
  simp at hmem

/-- Witness for C8: a concrete 302 response with no Location header. -/
theorem pullBlobAsStream_missingLocation_witness :
    pullBlobAsStream (BlobResponse.mk 302 none none)
        (fun _ => BlobResponse.mk 200 none none) =
      ([.initialGet], .error "Missing redirect location") ∧
    ∀ url, PullEvent.redirectGet url ∉
      (pullBlobAsStream (BlobResponse.mk 302 none none)
        (fun _ => BlobResponse.mk 200 none none)).1 :=
  pullBlobAsStream_missingLocation (BlobResponse.mk 302 none none)
    (fun _ => BlobResponse.mk 200 none none) (Or.inl rfl) rfl

/-- Helper: when the RegistryService gate returns after the k-th sample,
that sample is below MEMORY_THRESHOLD and every earlier sample was at or
above it (each separated by the 1000 ms sleep). -/
theorem serviceGate_spec (totalUsed : Nat → Nat) :
    ∀ fuel i k, RegistryService.waitForMemoryAvailability totalUsed i fuel = some k →
      totalUsed k < MEMORY_THRESHOLD ∧ i ≤ k ∧
      ∀ j, i ≤ j → j < k → MEMORY_THRESHOLD ≤ totalUsed j := by
  intro fuel
  induction fuel with
  | zero => intro i k h; simp [RegistryService.waitForMemoryAvailability] at h
  | succ fuel ih =>
    intro i k h
    rw [RegistryService.waitForMemoryAvailability] at h
    by_cases hc : totalUsed i < MEMORY_THRESHOLD
    · rw [if_pos hc] at h
      obtain rfl : i = k := Option.some_injective _ h
      exact ⟨hc, le_refl i, fun j h1 h2 => absurd (lt_of_le_of_lt h1 h2) (lt_irrefl i)⟩
    · rw [if_neg hc] at h
      obtain ⟨hk, hik, hall⟩ := ih (i + 1) k h
      refine ⟨hk, le_trans (Nat.le_succ i) hik, fun j h1 h2 => ?_⟩
      rcases Nat.eq_or_lt_of_le h1 with rfl | h1
      · exact Nat.le_of_not_lt hc
      · exact hall j h1 h2

/-- Helper: when the client gate returns after the k-th sample, that
sample (os.freemem()) is at or ABOVE the threshold, and every earlier
sample was below it. -/
theorem clientGate_spec (freemem : Nat → Nat) (threshold : Nat) :
    ∀ fuel i k,
      ContainerRegistryClient.waitForMemoryAvailability freemem threshold i fuel = some k →
      threshold ≤ freemem k ∧ i ≤ k ∧
      ∀ j, i ≤ j → j < k → freemem j < threshold := by
  intro fuel
  induction fuel with
  | zero => intro i k h; simp [ContainerRegistryClient.waitForMemoryAvailability] at h
  | succ fuel ih =>
    intro i k h
    rw [ContainerRegistryClient.waitForMemoryAvailability] at h
    by_cases hc : freemem i < threshold
    · rw [if_pos hc] at h
      obtain ⟨hk, hik, hall⟩ := ih (i + 1) k h
      refine ⟨hk, le_trans (Nat.le_succ i) hik, fun j h1 h2 => ?_⟩
      rcases Nat.eq_or_lt_of_le h1 with rfl | h1
      · exact hc
      · exact hall j h1 h2
    · rw [if_neg hc] at h
      obtain rfl : i = k := Option.some_injective _ h
      exact ⟨Nat.le_of_not_lt hc, le_refl i,
        fun j h1 h2 => absurd (lt_of_le_of_lt h1 h2) (lt_irrefl i)⟩

/-- C7 counterexample: the ContainerRegistryClient gate samples
os.freemem(), not usage, and returns precisely when that sample is at or
ABOVE the threshold.  With 4 GiB free it returns at the very first poll
although the sampled value is not below the 3 GiB threshold — and on a
host with 8 GiB total the corresponding used memory (total minus free,
4 GiB) also exceeds the threshold when the gate lets the job proceed. -/
theorem clientGate_counterexample :
    ContainerRegistryClient.waitForMemoryAvailability
        (fun _ => 4 * 1024 * 1024 * 1024) MEMORY_THRESHOLD 0 1 = some 0 ∧
    ¬ ((4 * 1024 * 1024 * 1024 : Nat) < MEMORY_THRESHOLD) ∧
    ¬ ((8 * 1024 * 1024 * 1024 - 4 * 1024 * 1024 * 1024 : Nat) < MEMORY_THRESHOLD) := by
  refine ⟨?_, by decide, by decide⟩
  rw [ContainerRegistryClient.waitForMemoryAvailability, if_neg (by decide)]

/-- C7 amended: the RegistryService gate polls process usage
(heapUsed + external + arrayBuffers) with a fixed 1-second backoff and
returns exactly when the sampled usage drops below the 3 GiB threshold
(all earlier samples were at or above it); the ContainerRegistryClient
gate instead polls os.freemem() and returns exactly when the sampled FREE
memory reaches or exceeds its threshold. -/
theorem memoryGates_return_conditions (totalUsed freemem : Nat → Nat)
    (threshold fuelS iS kS fuelC iC kC : Nat)
    (hs : RegistryService.waitForMemoryAvailability totalUsed iS fuelS = some kS)
    (hc : ContainerRegistryClient.waitForMemoryAvailability freemem threshold iC fuelC
      = some kC) :
    (totalUsed kS < MEMORY_THRESHOLD ∧ iS ≤ kS ∧
      ∀ j, iS ≤ j → j < kS → MEMORY_THRESHOLD ≤ totalUsed j) ∧
    (threshold ≤ freemem kC ∧ iC ≤ kC ∧
      ∀ j, iC ≤ j → j < kC → freemem j < threshold) :=
  ⟨serviceGate_spec totalUsed fuelS iS kS hs,
    clientGate_spec freemem threshold fuelC iC kC hc⟩

/-- Witness for C7 (amended): the service gate with a zero usage sample
and the client gate with a free-memory sample equal to the threshold both
return at their first poll. -/
theorem memoryGates_return_conditions_witness :
    ((fun _ : Nat => (0 : Nat)) 0 < MEMORY_THRESHOLD ∧ (0 : Nat) ≤ 0 ∧
      ∀ j, (0 : Nat) ≤ j → j < 0 → MEMORY_THRESHOLD ≤ (fun _ : Nat => (0 : Nat)) j) ∧
    (MEMORY_THRESHOLD ≤ (fun _ : Nat => MEMORY_THRESHOLD) 0 ∧ (0 : Nat) ≤ 0 ∧
      ∀ j, (0 : Nat) ≤ j → j < 0 → (fun _ : Nat => MEMORY_THRESHOLD) j < MEMORY_THRESHOLD) :=
  memoryGates_return_conditions (fun _ => 0) (fun _ => MEMORY_THRESHOLD)
    MEMORY_THRESHOLD 1 0 0 1 0 0
    (by rw [RegistryService.waitForMemoryAvailability, if_pos (by decide)])
    (by rw [ContainerRegistryClient.waitForMemoryAvailability, if_neg (by decide)])

/-- C1 counterexample: a sync that completes successfully can record a
config size different from the source manifest.  syncImageWithBuffer takes
`configSize` from the pull response content-length, which parses to 0 when
the header is absent; with a source manifest whose config.size is 7 the
republished manifest records 0. -/
theorem syncImageWithBuffer_configSize_counterexample :
    (pullBlobAsStream (BlobResponse.mk 200 none none)
        (fun _ => BlobResponse.mk 200 none none)).2 = .ok 0 ∧
    (syncImageWithBufferNewManifest
        (Manifest.mk 2 "application/vnd.docker.distribution.manifest.v2+json"
          (Descriptor.mk "application/vnd.docker.container.image.v1+json" "sha256:aaa" 7)
          [])
        0).config.size = 0 ∧
    (Manifest.mk 2 "application/vnd.docker.distribution.manifest.v2+json"
        (Descriptor.mk "application/vnd.docker.container.image.v1+json" "sha256:aaa" 7)
        []).config.size = 7 ∧
    (0 : Nat) ≠ 7 := by
  refine ⟨rfl, rfl, rfl, by decide⟩

/-- C1 amended: syncImageWithBuffer preserves the config digest and every
layer descriptor (digest, size, order, mediaType) of the source manifest,
but records as config size the parsed content-length of the config blob
pull (equal to the source config size only when the registry reports it);
copyImage republishes the fetched manifest body itself unchanged, as the
final event of a successful concrete copy. -/
theorem syncImageWithBuffer_preservation (m : Manifest) (configSize : Nat)
    (blobOk : String → Bool) (mt destRef : String)
    (hok : (copyImage blobOk (.image mt m) destRef).2 = true) :
    ((syncImageWithBufferNewManifest m configSize).config.digest = m.config.digest ∧
      (syncImageWithBufferNewManifest m configSize).config.size = configSize ∧
      (syncImageWithBufferNewManifest m configSize).layers = m.layers) ∧
    (∃ pre, (copyImage blobOk (.image mt m) destRef).1 =
      pre ++ [CopyEvent.manifestPut destRef mt (.image m)]) := by
  constructor
  · refine ⟨rfl, rfl, ?_⟩
    show m.layers.map _ = m.layers
    exact List.map_id m.layers
  · by_cases h1 : (m.layers.filter fun l => !(strIncludes l.mediaType "foreign")).all
        fun l => blobOk l.digest
    · by_cases h2 : blobOk m.config.digest
      · refine ⟨((m.layers.filter fun l => !(strIncludes l.mediaType "foreign")).filterMap
          fun l => if blobOk l.digest then some (CopyEvent.blobUpload l.digest) else none)
            ++ [CopyEvent.blobUpload m.config.digest], ?_⟩
        simp [copyImage, h1, h2]
      · exfalso
        simp [copyImage, h1, h2] at hok
    · exfalso
      simp [copyImage, h1] at hok

/-- Witness for C1 (amended): a one-layer manifest whose blobs all
transfer, with a parsed config content-length of 0. -/
theorem syncImageWithBuffer_preservation_witness :
    ((syncImageWithBufferNewManifest
        (Manifest.mk 2 "mt" (Descriptor.mk "cmt" "sha256:aaa" 7)
          [Descriptor.mk "lmt" "sha256:bbb" 9]) 0).config.digest =
      (Manifest.mk 2 "mt" (Descriptor.mk "cmt" "sha256:aaa" 7)
        [Descriptor.mk "lmt" "sha256:bbb" 9]).config.digest ∧
      (syncImageWithBufferNewManifest
        (Manifest.mk 2 "mt" (Descriptor.mk "cmt" "sha256:aaa" 7)
          [Descriptor.mk "lmt" "sha256:bbb" 9]) 0).config.size = 0 ∧
      (syncImageWithBufferNewManifest
        (Manifest.mk 2 "mt" (Descriptor.mk "cmt" "sha256:aaa" 7)
          [Descriptor.mk "lmt" "sha256:bbb" 9]) 0).layers =
      (Manifest.mk 2 "mt" (Descriptor.mk "cmt" "sha256:aaa" 7)
        [Descriptor.mk "lmt" "sha256:bbb" 9]).layers) ∧
    (∃ pre, (copyImage (fun _ => true)
        (.image "imt" (Manifest.mk 2 "mt" (Descriptor.mk "cmt" "sha256:aaa" 7)
          [Descriptor.mk "lmt" "sha256:bbb" 9])) "dest").1 =
      pre ++ [CopyEvent.manifestPut "dest" "imt"
        (.image (Manifest.mk 2 "mt" (Descriptor.mk "cmt" "sha256:aaa" 7)
          [Descriptor.mk "lmt" "sha256:bbb" 9]))]) :=
  syncImageWithBuffer_preservation
    (Manifest.mk 2 "mt" (Descriptor.mk "cmt" "sha256:aaa" 7)
      [Descriptor.mk "lmt" "sha256:bbb" 9]) 0 (fun _ => true) "imt" "dest" (by rfl)

/-- Helper: the per-layer events of a concrete copy are blob uploads. -/
theorem mem_layerEvents {blobOk : String → Bool} {ls : List Descriptor} {e : CopyEvent}
    (h : e ∈ ls.filterMap fun l =>
      if blobOk l.digest then some (CopyEvent.blobUpload l.digest) else none) :
    ∃ d, e = CopyEvent.blobUpload d := by
  rcases List.mem_filterMap.mp h with ⟨l, _, hl⟩
  by_cases hb : blobOk l.digest
  · rw [if_pos hb] at hl
    exact ⟨l.digest, (Option.some_injective _ hl).symm⟩
  · rw [if_neg hb] at hl
    cases hl

/-- Helper: the events of the sequential layer loop are blob uploads. -/
theorem mem_syncLayersLoop {transferOk : String → Bool} {ls : List Descriptor}
    {e : CopyEvent} (h : e ∈ (syncLayersLoop transferOk ls).1) :
    ∃ d, e = CopyEvent.blobUpload d := by
  induction ls with
  | nil => simp [syncLayersLoop] at h
  | cons l ls ih =>
    by_cases hb : transferOk l.digest
    · rw [syncLayersLoop, if_pos hb] at h
      rcases List.mem_cons.mp h with h | h
      · exact ⟨l.digest, h⟩
      · exact ih h
    · rw [syncLayersLoop, if_neg hb] at h
      cases h

/-- C2: (i) in a concrete-manifest copy, if any transferable layer blob or
the config blob fails to transfer, no manifest PUT whatsoever appears in
the trace; (ii) in an index copy, if any child invocation fails, the
parent invocation appends no index PUT of its own; (iii) if every child
succeeds, the index PUT is issued exactly once, strictly after all child
events; (iv) the sequential RegistryService.syncImageWithBuffer likewise
never reaches its manifest PUT when any blob transfer fails. -/
theorem copyImage_noPartialPut (blobOk : String → Bool) (mt raw destRef : String)
    (m : Manifest) (children : List (String × ManifestTree))
    (transferOk : String → Bool) (destTag : String) :
    ((¬ ((m.layers.filter fun l => !(strIncludes l.mediaType "foreign")).all
          fun l => blobOk l.digest)
        ∨ blobOk m.config.digest = false) →
      ∀ r mtype b, CopyEvent.manifestPut r mtype b ∉
        (copyImage blobOk (.image mt m) destRef).1) ∧
    ((∃ res ∈ copyChildren blobOk children, res.2 = false) →
      (copyImage blobOk (.indexNode mt raw children) destRef).1 =
        ((copyChildren blobOk children).map Prod.fst).flatten) ∧
    ((∀ res ∈ copyChildren blobOk children, res.2 = true) →
      (copyImage blobOk (.indexNode mt raw children) destRef).1 =
        ((copyChildren blobOk children).map Prod.fst).flatten
          ++ [CopyEvent.manifestPut destRef mt (.indexRaw raw)]) ∧
    ((RegistryService.syncImageWithBuffer transferOk m destTag).2 = false →
      ∀ r mtype b, CopyEvent.manifestPut r mtype b ∉
        (RegistryService.syncImageWithBuffer transferOk m destTag).1) := by
  refine ⟨?_, ?_, ?_, ?_⟩
  · intro hfail r mtype b
    by_cases h1 : (m.layers.filter fun l => !(strIncludes l.mediaType "foreign")).all
        fun l => blobOk l.digest
    · have h2 : blobOk m.config.digest = false := by
        rcases hfail with h | h
        · exact absurd h1 h
        · exact h
      simp [copyImage, h1, h2, List.mem_filterMap]
    · simp [copyImage, h1, List.mem_filterMap]
  · intro hfail
    have hall : ¬ ((copyChildren blobOk children).all fun r => r.2) = true := by
      intro htrue
      rcases hfail with ⟨res, hres, h2⟩
      have := List.all_eq_true.mp htrue res hres
      simp [h2] at this
    simp only [copyImage]
    rw [if_neg hall]
  · intro hall
    have hall2 : ((copyChildren blobOk children).all fun r => r.2) = true :=
      List.all_eq_true.mpr fun r hr => hall r hr
    simp only [copyImage]
    rw [if_pos hall2]
  · intro hfail r mtype b hmem
    by_cases h2 : transferOk m.config.digest
    · rw [RegistryService.syncImageWithBuffer, if_pos h2] at hfail hmem
      by_cases hr : (syncLayersLoop transferOk m.layers).2
      · rw [if_pos hr] at hfail
        cases hfail
      · rw [if_neg hr] at hmem
        rcases List.mem_cons.mp hmem with h | h
        · cases h
        · rcases mem_syncLayersLoop h with ⟨d, hd⟩
          cases hd
    · rw [RegistryService.syncImageWithBuffer, if_neg h2] at hmem
      cases hmem

/-- Witness for C2: a manifest list with two platform entries whose
transfers all succeed republishes the index strictly after both child
copies. -/
theorem copyImage_noPartialPut_witness :
    (copyImage (fun _ => true)
      (.indexNode "application/vnd.docker.distribution.manifest.list.v2+json" "indexBody"
        [("sha256:c1", .image "imt"
            (Manifest.mk 2 "imt" (Descriptor.mk "cmt" "sha256:cfg1" 3)
              [Descriptor.mk "lmt" "sha256:l1" 4])),
         ("sha256:c2", .image "imt"
            (Manifest.mk 2 "imt" (Descriptor.mk "cmt" "sha256:cfg2" 5)
              [Descriptor.mk "lmt" "sha256:l2" 6]))])
      "dest").1 =
    ((copyChildren (fun _ => true)
        [("sha256:c1", .image "imt"
            (Manifest.mk 2 "imt" (Descriptor.mk "cmt" "sha256:cfg1" 3)
              [Descriptor.mk "lmt" "sha256:l1" 4])),
         ("sha256:c2", .image "imt"
            (Manifest.mk 2 "imt" (Descriptor.mk "cmt" "sha256:cfg2" 5)
              [Descriptor.mk "lmt" "sha256:l2" 6]))]).map Prod.fst).flatten
      ++ [CopyEvent.manifestPut "dest"
            "application/vnd.docker.distribution.manifest.list.v2+json"
            (.indexRaw "indexBody")] :=
  (copyImage_noPartialPut (fun _ => true)
    "application/vnd.docker.distribution.manifest.list.v2+json" "indexBody" "dest"
    (Manifest.mk 2 "imt" (Descriptor.mk "cmt" "sha256:cfg1" 3)
      [Descriptor.mk "lmt" "sha256:l1" 4])
    [("sha256:c1", .image "imt"
        (Manifest.mk 2 "imt" (Descriptor.mk "cmt" "sha256:cfg1" 3)
          [Descriptor.mk "lmt" "sha256:l1" 4])),
     ("sha256:c2", .image "imt"
        (Manifest.mk 2 "imt" (Descriptor.mk "cmt" "sha256:cfg2" 5)
          [Descriptor.mk "lmt" "sha256:l2" 6]))]
    (fun _ => true) "destTag").2.2.1 (by decide)

/-- Helper: when every download succeeds, the temp files created are
exactly one per blob digest, in download order. -/
theorem downloadAll_ok (ok : String → Bool) (ds : List String)
    (h : (downloadAll ok ds).2 = true) :
    (downloadAll ok ds).1 = ds.map tmpFileName := by
  induction ds with
  | nil => simp [downloadAll]
  | cons d ds ih =>
    by_cases hd : ok d
    · simp only [downloadAll, hd, if_true, List.map_cons] at h ⊢
      rw [ih h]
    · simp [downloadAll, hd] at h

/-- C3 counterexample: a tarball-mode run that fails at the push step
(after its downloads succeeded) surfaces the push error WITHOUT deleting
the temp file it created — the cleanup loop runs only after a successful
manifest put, there is no try/finally. -/
theorem syncImageWithTarball_leftoverFile_counterexample :
    (syncImageWithTarball (TarballWorld.mk
        (Manifest.mk 2 "mt" (Descriptor.mk "cmt" "sha256:c" 3) [])
        (fun _ => true) (fun _ => false) true (fun _ => true))).2 =
      .error "Failed to push blob from file" ∧
    (syncImageWithTarball (TarballWorld.mk
        (Manifest.mk 2 "mt" (Descriptor.mk "cmt" "sha256:c" 3) [])
        (fun _ => true) (fun _ => false) true (fun _ => true))).1 =
      ["sha256_c.blob"] :=
  ⟨rfl, rfl⟩

/-- C3 amended: after a fully successful tarball-mode run the remaining
temp files are exactly those whose unlink failed (so none when every
unlink succeeds; unlink failures are logged and non-fatal); after a run
that fails anywhere before the cleanup step, every temp file created up
to the failure is left behind. -/
theorem syncImageWithTarball_cleanup (w : TarballWorld) :
    ((syncImageWithTarball w).2 = .ok () →
      (syncImageWithTarball w).1 =
        ((blobDigests w.manifest).map tmpFileName).filter fun f => !w.unlinkOk f) ∧
    ((∀ f, w.unlinkOk f = true) → (syncImageWithTarball w).2 = .ok () →
      (syncImageWithTarball w).1 = []) ∧
    (∀ e, (syncImageWithTarball w).2 = .error e →
      (syncImageWithTarball w).1 =
        (downloadAll w.downloadOk (blobDigests w.manifest)).1) := by
  have hfilter : ∀ (l : List String), (∀ f, w.unlinkOk f = true) →
      (l.filter fun f => !w.unlinkOk f) = [] := by
    intro l hu
    induction l with
    | nil => rfl
    | cons x xs ih => simp [List.filter, hu x, ih]
  cases hdl : (downloadAll w.downloadOk (blobDigests w.manifest)).2 with
  | false =>
    refine ⟨?_, ?_, ?_⟩
    · intro hok
      simp [syncImageWithTarball, hdl] at hok
    · intro _ hok
      simp [syncImageWithTarball, hdl] at hok
    · intro e _
      simp [syncImageWithTarball, hdl]
  | true =>
    cases hpush : (blobDigests w.manifest).all w.pushOk with
    | false =>
      refine ⟨?_, ?_, ?_⟩
      · intro hok
        simp [syncImageWithTarball, hdl, hpush] at hok
      · intro _ hok
        simp [syncImageWithTarball, hdl, hpush] at hok
      · intro e _
        simp [syncImageWithTarball, hdl, hpush]
    | true =>
      cases hput : w.putManifestOk with
      | false =>
        refine ⟨?_, ?_, ?_⟩
        · intro hok
          simp [syncImageWithTarball, hdl, hpush, hput] at hok
        · intro _ hok
          simp [syncImageWithTarball, hdl, hpush, hput] at hok
        · intro e _
          simp [syncImageWithTarball, hdl, hpush, hput]
      | true =>
        refine ⟨?_, ?_, ?_⟩
        · intro _
          simp only [syncImageWithTarball, hdl, hpush, hput, if_true]
          rw [downloadAll_ok w.downloadOk _ hdl]
        · intro hu _
          simp only [syncImageWithTarball, hdl, hpush, hput, if_true]
          rw [downloadAll_ok w.downloadOk _ hdl, hfilter _ hu]
        · intro e he
          simp [syncImageWithTarball, hdl, hpush, hput] at he

/-- Witness for C3 (amended): a run where every step succeeds leaves the
temp directory empty. -/
theorem syncImageWithTarball_cleanup_witness :
    (syncImageWithTarball (TarballWorld.mk
        (Manifest.mk 2 "mt" (Descriptor.mk "cmt" "sha256:c" 3)
          [Descriptor.mk "lmt" "sha256:l" 4])
        (fun _ => true) (fun _ => true) true (fun _ => true))).1 = [] :=
  (syncImageWithTarball_cleanup (TarballWorld.mk
      (Manifest.mk 2 "mt" (Descriptor.mk "cmt" "sha256:c" 3)
        [Descriptor.mk "lmt" "sha256:l" 4])
      (fun _ => true) (fun _ => true) true (fun _ => true))).2.1
    (fun _ => rfl) rfl

/-- C4 counterexample: with useGzip unset, a layer whose first two bytes
are the gzip magic 0x1f 0x8b is indeed written unchanged, but its
recorded media type is the PLAIN tar type, which does not end in +gzip —
the code marks +gzip exactly on the layers it itself compresses. -/
theorem saveAsOCIImageLayout_gzipMagic_counterexample :
    isProbablyGzip [0x1f, 0x8b] = true ∧
    (saveAsOCIImageLayout (fun _ => "h") (fun b => b) (fun _ => [])
        [] [[0x1f, 0x8b]] none).blobFiles =
      [("h", []), ("h", [0x1f, 0x8b]), ("h", [])] ∧
    (saveAsOCIImageLayout (fun _ => "h") (fun b => b) (fun _ => [])
        [] [[0x1f, 0x8b]] none).manifest.layers =
      [Descriptor.mk "application/vnd.oci.image.layer.v1.tar" "sha256:h" 2] ∧
    strEndsWith "application/vnd.oci.image.layer.v1.tar" "+gzip" = false := by
  refine ⟨rfl, rfl, rfl, ?_⟩
  decide

/-- C4 amended: with useGzip unset, a layer starting with the gzip magic
bytes is written unchanged and recorded with the plain tar media type
(not ending in +gzip), while a non-gzip layer is compressed and recorded
with the +gzip media type; saveAsOCIImageLayout records exactly these
bytes and media types per layer. -/
theorem saveAsOCIImageLayout_gzipNormalization (hash : List Nat → String)
    (gz : List Nat → List Nat) (ser : OCIManifest → List Nat)
    (config : List Nat) (layers : List (List Nat)) (layer : List Nat) :
    (isProbablyGzip layer = true →
      ociLayerData gz none layer = layer ∧
      ociLayerMediaType none layer = "application/vnd.oci.image.layer.v1.tar" ∧
      strEndsWith "application/vnd.oci.image.layer.v1.tar" "+gzip" = false) ∧
    (isProbablyGzip layer = false →
      ociLayerData gz none layer = gz layer ∧
      ociLayerMediaType none layer = "application/vnd.oci.image.layer.v1.tar+gzip" ∧
      strEndsWith "application/vnd.oci.image.layer.v1.tar+gzip" "+gzip" = true) ∧
    (saveAsOCIImageLayout hash gz ser config layers none).manifest.layers =
      layers.map fun l => Descriptor.mk (ociLayerMediaType none l)
        ("sha256:" ++ hash (ociLayerData gz none l)) (ociLayerData gz none l).length := by
  refine ⟨?_, ?_, rfl⟩
  · intro hmagic
    refine ⟨?_, ?_, by decide⟩
    · simp [ociLayerData, hmagic]
    · simp [ociLayerMediaType, hmagic]
  · intro hmagic
    refine ⟨?_, ?_, by decide⟩
    · simp [ociLayerData, hmagic]
    · simp [ociLayerMediaType, hmagic]

/-- Witness for C4 (amended) on the two-byte gzip-magic layer. -/
theorem saveAsOCIImageLayout_gzipNormalization_witness :
    (isProbablyGzip [0x1f, 0x8b] = true →
      ociLayerData (fun b => b) none [0x1f, 0x8b] = [0x1f, 0x8b] ∧
      ociLayerMediaType none [0x1f, 0x8b] = "application/vnd.oci.image.layer.v1.tar" ∧
      strEndsWith "application/vnd.oci.image.layer.v1.tar" "+gzip" = false) ∧
    (isProbablyGzip [0x1f, 0x8b] = false →
      ociLayerData (fun b => b) none [0x1f, 0x8b] = (fun b => b) [0x1f, 0x8b] ∧
      ociLayerMediaType none [0x1f, 0x8b] =
        "application/vnd.oci.image.layer.v1.tar+gzip" ∧
      strEndsWith "application/vnd.oci.image.layer.v1.tar+gzip" "+gzip" = true) ∧
    (saveAsOCIImageLayout (fun _ => "h") (fun b => b) (fun _ => [])
        [] [[0x1f, 0x8b]] none).manifest.layers =
      [[0x1f, 0x8b]].map fun l => Descriptor.mk (ociLayerMediaType none l)
        ("sha256:" ++ (fun _ => "h") (ociLayerData (fun b => b) none l))
        (ociLayerData (fun b => b) none l).length :=
  saveAsOCIImageLayout_gzipNormalization (fun _ => "h") (fun b => b) (fun _ => [])
    [] [[0x1f, 0x8b]] [0x1f, 0x8b]

/-- C9: saveAsOCIImageLayout produces a consistent content-addressed
store — every file under blobs/sha256 is named by the digest of exactly
the bytes stored in it, and the config descriptor, every layer descriptor
and the index.json manifest entry each record the digest and byte length
of bytes actually written to the store.  The statement holds for every
digest function, gzip function and serialiser, hence for sha256, zlib and
JSON.stringify in particular. -/
theorem saveAsOCIImageLayout_contentAddressed (hash : List Nat → String)
    (gz : List Nat → List Nat) (ser : OCIManifest → List Nat)
    (config : List Nat) (layers : List (List Nat)) (useGzip : Option Bool) :
    (∀ p ∈ (saveAsOCIImageLayout hash gz ser config layers useGzip).blobFiles,
      p.1 = hash p.2) ∧
    DescriptorMatches hash
      (saveAsOCIImageLayout hash gz ser config layers useGzip).blobFiles
      (saveAsOCIImageLayout hash gz ser config layers useGzip).manifest.config ∧
    (∀ d ∈ (saveAsOCIImageLayout hash gz ser config layers useGzip).manifest.layers,
      DescriptorMatches hash
        (saveAsOCIImageLayout hash gz ser config layers useGzip).blobFiles d) ∧
    DescriptorMatches hash
      (saveAsOCIImageLayout hash gz ser config layers useGzip).blobFiles
      (saveAsOCIImageLayout hash gz ser config layers useGzip).manifestEntry := by
  refine ⟨?_, ?_, ?_, ?_⟩
  · intro p hp
    simp only [saveAsOCIImageLayout] at hp
    rcases List.mem_cons.mp hp with h | hp2
    · rw [h]
    · rcases List.mem_append.mp hp2 with hp3 | hp4
      · rcases List.mem_map.mp hp3 with ⟨layer, _, h⟩
        rw [← h]
      · rcases List.mem_singleton.mp hp4 with h
        rw [h]
  · unfold DescriptorMatches
    refine ⟨config, rfl, rfl, ?_⟩
    simp only [saveAsOCIImageLayout]
    exact List.mem_cons_self _ _
  · intro d hd
    simp only [saveAsOCIImageLayout, List.mem_map] at hd
    rcases hd with ⟨layer, hlay, rfl⟩
    unfold DescriptorMatches
    refine ⟨ociLayerData gz useGzip layer, rfl, rfl, ?_⟩
    simp only [saveAsOCIImageLayout]
    exact List.mem_cons_of_mem _
      (List.mem_append_left _ (List.mem_map.mpr ⟨layer, hlay, rfl⟩))
  · unfold DescriptorMatches
    refine ⟨ser (saveAsOCIImageLayout hash gz ser config layers useGzip).manifest,
      rfl, rfl, ?_⟩
    simp only [saveAsOCIImageLayout]
    exact List.mem_cons_of_mem _
      (List.mem_append_right _ (List.mem_singleton_self _))

/-- Witness for C9 at a concrete store with one gzip-magic layer. -/
theorem saveAsOCIImageLayout_contentAddressed_witness :
    (∀ p ∈ (saveAsOCIImageLayout (fun b => toString b.length) (fun b => 0 :: b)
        (fun _ => [9]) [7] [[0x1f, 0x8b]] none).blobFiles,
      p.1 = (fun b : List Nat => toString b.length) p.2) ∧
    DescriptorMatches (fun b => toString b.length)
      (saveAsOCIImageLayout (fun b => toString b.length) (fun b => 0 :: b)
        (fun _ => [9]) [7] [[0x1f, 0x8b]] none).blobFiles
      (saveAsOCIImageLayout (fun b => toString b.length) (fun b => 0 :: b)
        (fun _ => [9]) [7] [[0x1f, 0x8b]] none).manifest.config ∧
    (∀ d ∈ (saveAsOCIImageLayout (fun b => toString b.length) (fun b => 0 :: b)
        (fun _ => [9]) [7] [[0x1f, 0x8b]] none).manifest.layers,
      DescriptorMatches (fun b => toString b.length)
        (saveAsOCIImageLayout (fun b => toString b.length) (fun b => 0 :: b)
          (fun _ => [9]) [7] [[0x1f, 0x8b]] none).blobFiles d) ∧
    DescriptorMatches (fun b => toString b.length)
      (saveAsOCIImageLayout (fun b => toString b.length) (fun b => 0 :: b)
        (fun _ => [9]) [7] [[0x1f, 0x8b]] none).blobFiles
      (saveAsOCIImageLayout (fun b => toString b.length) (fun b => 0 :: b)
        (fun _ => [9]) [7] [[0x1f, 0x8b]] none).manifestEntry :=
  saveAsOCIImageLayout_contentAddressed (fun b => toString b.length)
    (fun b => 0 :: b) (fun _ => [9]) [7] [[0x1f, 0x8b]] none

/-- C10: pushImage uploads, for a layer flagged isGzip = false, the gzip
compression of the layer buffer, records as digest the sha256 of those
COMPRESSED bytes, but records as size the length of the ORIGINAL
uncompressed buffer; the recorded size matches the uploaded bytes when
isGzip is true, and differs whenever gzip changes the buffer length. -/
theorem pushImage_sizeDigestFacts (hash : List Nat → String)
    (gz : List Nat → List Nat) (config : List Nat)
    (layers : List (List Nat × Bool)) (i : Nat) (layer : List Nat × Bool)
    (hl : layers[i]? = some layer) :
    (pushImage hash gz config layers).uploadedBlobs[0]? =
      some ("sha256:" ++ hash config, config) ∧
    (pushImage hash gz config layers).manifest.config.digest =
      "sha256:" ++ hash config ∧
    (pushImage hash gz config layers).manifest.config.size = config.length ∧
    (pushImage hash gz config layers).uploadedBlobs[i + 1]? =
      some ("sha256:" ++ hash (if layer.2 then layer.1 else gz layer.1),
        if layer.2 then layer.1 else gz layer.1) ∧
    (pushImage hash gz config layers).manifest.layers[i]? =
      some (Descriptor.mk "application/vnd.docker.image.rootfs.diff.tar.gzip"
        ("sha256:" ++ hash (if layer.2 then layer.1 else gz layer.1))
        layer.1.length) ∧
    (layer.2 = true →
      layer.1.length = (if layer.2 then layer.1 else gz layer.1).length) ∧
    (layer.2 = false → (gz layer.1).length ≠ layer.1.length →
      layer.1.length ≠ (if layer.2 then layer.1 else gz layer.1).length) := by
  refine ⟨?_, ?_, ?_, ?_, ?_, ?_, ?_⟩
  · show (_ :: _)[0]? = _
    rw [List.getElem?_cons_zero]
  · rfl
  · rfl
  · show (_ :: _)[i + 1]? = _
    rw [List.getElem?_cons_succ, List.getElem?_map, hl]
    rfl
  · show (List.map _ layers)[i]? = _
    rw [List.getElem?_map, hl]
    rfl
  · intro h2
    rw [if_pos h2]
  · intro h2 hgz
    rw [if_neg (by simp [h2])]
    exact fun h => hgz h.symm

/-- Witness for C10 at a one-layer image whose layer is not pre-gzipped,
with a gzip function that changes the buffer length. -/
theorem pushImage_sizeDigestFacts_witness :
    (pushImage (fun _ => "H") (fun b => 0 :: b) [1] [([5], false)]).uploadedBlobs[0]? =
      some ("sha256:" ++ (fun _ : List Nat => "H") [1], [1]) ∧
    (pushImage (fun _ => "H") (fun b => 0 :: b) [1] [([5], false)]).manifest.config.digest =
      "sha256:" ++ (fun _ : List Nat => "H") [1] ∧
    (pushImage (fun _ => "H") (fun b => 0 :: b) [1] [([5], false)]).manifest.config.size =
      ([1] : List Nat).length ∧
    (pushImage (fun _ => "H") (fun b => 0 :: b) [1] [([5], false)]).uploadedBlobs[0 + 1]? =
      some ("sha256:" ++ (fun _ : List Nat => "H")
          (if (([5], false) : List Nat × Bool).2 then (([5], false) : List Nat × Bool).1
            else (fun b : List Nat => 0 :: b) (([5], false) : List Nat × Bool).1),
        if (([5], false) : List Nat × Bool).2 then (([5], false) : List Nat × Bool).1
          else (fun b : List Nat => 0 :: b) (([5], false) : List Nat × Bool).1) ∧
    (pushImage (fun _ => "H") (fun b => 0 :: b) [1] [([5], false)]).manifest.layers[0]? =
      some (Descriptor.mk "application/vnd.docker.image.rootfs.diff.tar.gzip"
        ("sha256:" ++ (fun _ : List Nat => "H")
          (if (([5], false) : List Nat × Bool).2 then (([5], false) : List Nat × Bool).1
            else (fun b : List Nat => 0 :: b) (([5], false) : List Nat × Bool).1))
        (([5], false) : List Nat × Bool).1.length) ∧
    ((([5], false) : List Nat × Bool).2 = true →
      (([5], false) : List Nat × Bool).1.length =
        (if (([5], false) : List Nat × Bool).2 then (([5], false) : List Nat × Bool).1
          else (fun b : List Nat => 0 :: b) (([5], false) : List Nat × Bool).1).length) ∧
    ((([5], false) : List Nat × Bool).2 = false →
      ((fun b : List Nat => 0 :: b) (([5], false) : List Nat × Bool).1).length ≠
        (([5], false) : List Nat × Bool).1.length →
      (([5], false) : List Nat × Bool).1.length ≠
        (if (([5], false) : List Nat × Bool).2 then (([5], false) : List Nat × Bool).1
          else (fun b : List Nat => 0 :: b) (([5], false) : List Nat × Bool).1).length) :=
  pushImage_sizeDigestFacts (fun _ => "H") (fun b => 0 :: b) [1] [([5], false)] 0
    ([5], false) rfl

end NestjsLab
